import Mathlib

/-!
# Verification of the EasyIB order-confirmation handshake

A shallow embedding of `src/easyib/easyib.py` (class `REST`), the thin
client for the Interactive Brokers Client Portal Web API.  JSON bodies are
modelled by `JVal`; the remote vendor is modelled as an infinite stream of
response bodies consumed one per HTTP request, together with a trace of the
requests made.  Python exceptions are modelled by `PyErr`; the unbounded
`while` loop of `_reply_all_yes` is embedded with explicit fuel, exhaustion
of which is reported by the distinguished outcome `Res.diverge`.
-/

/-- A JSON value, as produced by `response.json()`.  Numbers are modelled as
integers (no claim depends on floating-point values). -/
inductive JVal where
  | null
  | bool (b : Bool)
  | num (n : Int)
  | str (s : String)
  | arr (items : List JVal)
  | obj (fields : List (String × JVal))

/-- The Python exceptions the embedded code can raise. -/
inductive PyErr where
  | typeError
  | keyError (k : String)
  | indexError
  | attributeError
  | assertionError
  | valueError
deriving DecidableEq

/-- An HTTP request issued through `requests`; `params` / `body` is
`JVal.null` when the call passes no query parameters / JSON body. -/
inductive Call where
  | get (url : String) (params : JVal)
  | post (url : String) (body : JVal)
  | delete (url : String)

/-- The network world: the vendor is an infinite stream `env` of JSON
response bodies, `next` is the index of the response the next request will
receive, and `trace` records the requests issued so far, in order. -/
structure World where
  env : Nat → JVal
  next : Nat
  trace : List Call

/-- Issue one HTTP request: record it in the trace and consume the next
vendor response. -/
def doRequest (c : Call) (w : World) : JVal × World :=
  (w.env w.next, ⟨w.env, w.next + 1, w.trace ++ [c]⟩)

/-- Outcome of running a method: normal return, a raised Python exception,
or fuel exhaustion of the (genuinely unbounded) confirmation loop. -/
inductive Res (α : Type) where
  | ok (a : α)
  | exn (e : PyErr)
  | diverge

/-- Python `body[0]` on a JSON response body.  On a dict Python raises
`KeyError: 0` (our object keys are strings, so the key is rendered "0");
on a scalar it raises `TypeError`. -/
def jsonIndex0 : JVal → Except PyErr JVal
  | .arr (x :: _) => .ok x
  | .arr [] => .error .indexError
  | .obj _ => .error (.keyError "0")
  | _ => .error .typeError

/-- Python `d[k]` for a string key `k`: value lookup on a dict, `KeyError`
when the key is absent, `TypeError` on a non-dict. -/
def objGet : JVal → String → Except PyErr JVal
  | .obj fs, k =>
    match fs.find? (fun p => p.1 == k) with
    | some p => .ok p.2
    | none => .error (.keyError k)
  | _, _ => .error .typeError

/-- Python `k in d.keys()`: key membership on a dict; `.keys()` on a
non-dict raises `AttributeError`. -/
def objHasKey : JVal → String → Except PyErr Bool
  | .obj fs, k => .ok (fs.any (fun p => p.1 == k))
  | _, _ => .error .attributeError

/-- Python string concatenation `a + v`: succeeds only when `v` is itself a
string, otherwise `TypeError`. -/
def asStrConcat (a : String) : JVal → Except PyErr String
  | .str t => .ok (a ++ t)
  | _ => .error .typeError

/-- Python truthiness of a JSON value. -/
def jTruthy : JVal → Bool
  | .null => false
  | .bool b => b
  | .num n => n != 0
  | .str s => s != ""
  | .arr items => !items.isEmpty
  | .obj fields => !fields.isEmpty

/-- Model of `v == "default"` in Python: value equality against a string literal;
false on every non-string. -/
def jeqStr : JVal → String → Bool
  | .str t, u => t == u
  | _, _ => false

/-- Model of `v != None` is false exactly on `None`. -/
def JVal.isNull : JVal → Bool
  | .null => true
  | _ => false

mutual

/-- Python `repr` of a JSON value (used by `str` on non-strings).  The
exact quoting of exotic strings is irrelevant to every claim; structure and
the scalar cases follow Python. -/
def pyRepr : JVal → String
  | .null => "None"
  | .bool true => "True"
  | .bool false => "False"
  | .num n => toString n
  | .str s => "'" ++ s ++ "'"
  | .arr items => "[" ++ pyReprList items ++ "]"
  | .obj fields => "\x7b" ++ pyReprFields fields ++ "\x7d"

/-- Comma-separated reprs of the elements of a JSON array. -/
def pyReprList : List JVal → String
  | [] => ""
  | [x] => pyRepr x
  | x :: xs => pyRepr x ++ ", " ++ pyReprList xs

/-- Comma-separated `'key': value` reprs of the fields of a JSON object. -/
def pyReprFields : List (String × JVal) → String
  | [] => ""
  | [(k, v)] => "'" ++ k ++ "': " ++ pyRepr v
  | (k, v) :: xs => "'" ++ k ++ "': " ++ pyRepr v ++ ", " ++ pyReprFields xs

end

/-- Python `str(v)`. -/
def pyStr : JVal → String
  | .str s => s
  | v => pyRepr v

/-- Python `int(v)`: identity on ints, 0/1 on bools, parse on strings
(`ValueError` on failure), `TypeError` otherwise. -/
def pyInt : JVal → Except PyErr Int
  | .num n => .ok n
  | .bool b => .ok (if b then 1 else 0)
  | .str s =>
    match s.toInt? with
    | some n => .ok n
    | none => .error .valueError
  | _ => .error .typeError

/-- Python `dict.update` with a single string key: replace the value in
place if the key is present (keeping insertion order), else append. -/
def dictUpdate (d : List (String × JVal)) (k : String) (v : JVal) :
    List (String × JVal) :=
  if d.any (fun p => p.1 == k) then
    d.map (fun p => if p.1 == k then (k, v) else p)
  else d ++ [(k, v)]

/-- The mutable attributes of a `REST` instance: `self.url`, `self.ssl`,
`self.id` (the selected-account field; a dynamically typed Python
attribute, hence a `JVal`). -/
structure RESTState where
  url : String
  ssl : Bool
  id : JVal

/-- Model of `REST.get_accounts`: GET `portfolio/accounts`, return the JSON body. -/
def get_accounts (s : RESTState) (w : World) :
    Res (JVal × RESTState) × World :=
  let r := doRequest (.get (s.url ++ "portfolio/accounts") JVal.null) w
  (.ok (r.1, s), r.2)

/-- Model of `REST.__init__`: set `self.url = url + "/v1/api/"`, `self.ssl = ssl`,
then `self.id = self.get_accounts()[0]["accountId"]`.  Before the final
assignment `self.id` is unset; the placeholder `JVal.null` stands for the
missing attribute (it is never read). -/
def REST_init (url : String) (ssl : Bool) (w : World) :
    Res RESTState × World :=
  let s0 : RESTState := ⟨url ++ "/v1/api/", ssl, JVal.null⟩
  match get_accounts s0 w with
  | (.ok (body, s1), w1) =>
    match jsonIndex0 body with
    | .error e => (.exn e, w1)
    | .ok first =>
      match objGet first "accountId" with
      | .error e => (.exn e, w1)
      | .ok acct => (.ok { s1 with id := acct }, w1)
  | (.exn e, w1) => (.exn e, w1)
  | (.diverge, w1) => (.diverge, w1)

/-- Model of `REST.switch_account`: POST `iserver/account` with `acctId`, assign
`self.id = accountId`, return the JSON body. -/
def switch_account (s : RESTState) (accountId : JVal) (w : World) :
    Res (JVal × RESTState) × World :=
  let r := doRequest
    (.post (s.url ++ "iserver/account") (JVal.obj [("acctId", accountId)])) w
  (.ok (r.1, { s with id := accountId }), r.2)

/-- Model of `REST.reply_yes`: POST an affirmative reply to the confirmation prompt
named by `id` and return element 0 of the JSON response array.  The URL
concatenation `self.url + "iserver/reply/" + id` requires `id` to be a
string. -/
def reply_yes (s : RESTState) (id : JVal) (w : World) :
    Res (JVal × RESTState) × World :=
  match asStrConcat (s.url ++ "iserver/reply/") id with
  | .error e => (.exn e, w)
  | .ok u =>
    let r := doRequest (.post u (JVal.obj [("confirmed", JVal.bool true)])) w
    match jsonIndex0 r.1 with
    | .error e => (.exn e, r.2)
    | .ok d => (.ok (d, s), r.2)

/-- The `while "order_id" not in dic.keys()` loop of `_reply_all_yes`,
with explicit fuel: one unit of fuel per loop-guard check.  Each iteration
evaluates `dic["message"]` (for the `print`), then `dic["id"]`, then calls
`self.reply_yes(dic["id"])` and continues with its result. -/
def replyLoopAux (s : RESTState) : Nat → JVal → World →
    Res (JVal × RESTState) × World
  | 0, _, w => (.diverge, w)
  | fuel + 1, dic, w =>
    match objHasKey dic "order_id" with
    | .error e => (.exn e, w)
    | .ok true => (.ok (dic, s), w)
    | .ok false =>
      match objGet dic "message" with
      | .error e => (.exn e, w)
      | .ok _ =>
        match objGet dic "id" with
        | .error e => (.exn e, w)
        | .ok idv =>
          match reply_yes s idv w with
          | (.ok (d, s1), w1) => replyLoopAux s1 fuel d w1
          | (.exn e, w1) => (.exn e, w1)
          | (.diverge, w1) => (.diverge, w1)

/-- Model of `REST._reply_all_yes`: take element 0 of the response body; when
`reply_yes_to_all` is set, run the confirmation loop, otherwise return the
element unmodified. -/
def reply_all_yes (s : RESTState) (fuel : Nat) (body : JVal)
    (reply_yes_to_all : Bool) (w : World) : Res (JVal × RESTState) × World :=
  match jsonIndex0 body with
  | .error e => (.exn e, w)
  | .ok dic =>
    if reply_yes_to_all then replyLoopAux s fuel dic w
    else (.ok (dic, s), w)

/-- Model of `REST.submit_orders`: POST the order list to
`iserver/account/<self.id>/orders`, then `_reply_all_yes`. -/
def submit_orders (s : RESTState) (fuel : Nat) (list_of_orders : List JVal)
    (reply_yes : Bool) (w : World) : Res (JVal × RESTState) × World :=
  match asStrConcat (s.url ++ "iserver/account/") s.id with
  | .error e => (.exn e, w)
  | .ok pre =>
    let r := doRequest
      (.post (pre ++ "/orders")
        (JVal.obj [("orders", JVal.arr list_of_orders)])) w
    reply_all_yes s fuel r.1 reply_yes r.2

/-- Model of `REST.modify_order`: assert both arguments differ from `None`, POST the
new order to `iserver/account/<self.id>/order/<str(orderId)>`, then
`_reply_all_yes`. -/
def modify_order (s : RESTState) (fuel : Nat) (orderId : JVal) (order : JVal)
    (reply_yes : Bool) (w : World) : Res (JVal × RESTState) × World :=
  if (!orderId.isNull) && (!order.isNull) then
    match asStrConcat (s.url ++ "iserver/account/") s.id with
    | .error e => (.exn e, w)
    | .ok pre =>
      let r := doRequest (.post (pre ++ "/order/" ++ pyStr orderId) order) w
      reply_all_yes s fuel r.1 reply_yes r.2
  else (.exn .assertionError, w)

/-- Model of `REST.get_cash`: GET `portfolio/<self.id>/ledger`, return
`body["USD"]["cashbalance"]`. -/
def get_cash (s : RESTState) (w : World) : Res (JVal × RESTState) × World :=
  match asStrConcat (s.url ++ "portfolio/") s.id with
  | .error e => (.exn e, w)
  | .ok pre =>
    let r := doRequest (.get (pre ++ "/ledger") JVal.null) w
    let v : Except PyErr JVal := do
      let usd ← objGet r.1 "USD"
      objGet usd "cashbalance"
    match v with
    | .error e => (.exn e, r.2)
    | .ok cash => (.ok (cash, s), r.2)

/-- Model of `REST.get_netvalue`: GET `portfolio/<self.id>/ledger`, return
`body["USD"]["netliquidationvalue"]`. -/
def get_netvalue (s : RESTState) (w : World) : Res (JVal × RESTState) × World :=
  match asStrConcat (s.url ++ "portfolio/") s.id with
  | .error e => (.exn e, w)
  | .ok pre =>
    let r := doRequest (.get (pre ++ "/ledger") JVal.null) w
    let v : Except PyErr JVal := do
      let usd ← objGet r.1 "USD"
      objGet usd "netliquidationvalue"
    match v with
    | .error e => (.exn e, r.2)
    | .ok nv => (.ok (nv, s), r.2)

/-- Model of `REST.get_conid`: GET `trsrv/stocks?symbols=<symbol>` and return
`body[symbol][0]["contracts"][0]["conid"]`. -/
def get_conid (s : RESTState) (symbol : String) (w : World) :
    Res (JVal × RESTState) × World :=
  let r := doRequest
    (.get (s.url ++ "trsrv/stocks") (JVal.obj [("symbols", JVal.str symbol)])) w
  let v : Except PyErr JVal := do
    let a ← objGet r.1 symbol
    let b ← jsonIndex0 a
    let c ← objGet b "contracts"
    let d ← jsonIndex0 c
    objGet d "conid"
  match v with
  | .error e => (.exn e, r.2)
  | .ok conid => (.ok (conid, s), r.2)

/-- Python `for item in body`: iterating a JSON array yields its elements;
iterating a dict yields its keys; anything else raises `TypeError`. -/
def pyIter : JVal → Except PyErr (List JVal)
  | .arr items => .ok items
  | .obj fields => .ok (fields.map (fun p => JVal.str p.1))
  | _ => .error .typeError

/-- A JSON value used as a dict key: the model restricts object keys to
strings (a non-string key never occurs in any vendor response considered
by the claims). -/
def asDictKey : JVal → Except PyErr String
  | .str s => .ok s
  | _ => .error .typeError

/-- Model of `REST.get_portfolio`: GET `portfolio/<self.id>/positions/0`, fold the
items into a dict keyed by `contractDesc`, then add the cash balance under
`"USD"` via `self.get_cash()`. -/
def get_portfolio (s : RESTState) (w : World) :
    Res (JVal × RESTState) × World :=
  match asStrConcat (s.url ++ "portfolio/") s.id with
  | .error e => (.exn e, w)
  | .ok pre =>
    let r := doRequest (.get (pre ++ "/positions/0") JVal.null) w
    let folded : Except PyErr (List (String × JVal)) := do
      let items ← pyIter r.1
      items.foldlM
        (fun dic item => do
          let kv ← objGet item "contractDesc"
          let v ← objGet item "position"
          let k ← asDictKey kv
          pure (dictUpdate dic k v))
        []
    match folded with
    | .error e => (.exn e, r.2)
    | .ok dic =>
      match get_cash s r.2 with
      | (.ok (cash, s2), w2) => (.ok (JVal.obj (dictUpdate dic "USD" cash), s2), w2)
      | (.exn e, w2) => (.exn e, w2)
      | (.diverge, w2) => (.diverge, w2)

/-- Model of `REST.get_order`: GET `iserver/account/order/status/<str(orderId)>`. -/
def get_order (s : RESTState) (orderId : JVal) (w : World) :
    Res (JVal × RESTState) × World :=
  let r := doRequest
    (.get (s.url ++ "iserver/account/order/status/" ++ pyStr orderId) JVal.null) w
  (.ok (r.1, s), r.2)

/-- Model of `REST.get_live_orders`: GET `iserver/account/orders?filters=...`. -/
def get_live_orders (s : RESTState) (filters : JVal) (w : World) :
    Res (JVal × RESTState) × World :=
  let r := doRequest
    (.get (s.url ++ "iserver/account/orders") (JVal.obj [("filters", filters)])) w
  (.ok (r.1, s), r.2)

/-- Model of `REST.cancel_order`: DELETE
`iserver/account/<self.id>/order/<str(orderId)>`. -/
def cancel_order (s : RESTState) (orderId : JVal) (w : World) :
    Res (JVal × RESTState) × World :=
  match asStrConcat (s.url ++ "iserver/account/") s.id with
  | .error e => (.exn e, w)
  | .ok pre =>
    let r := doRequest (.delete (pre ++ "/order/" ++ pyStr orderId)) w
    (.ok (r.1, s), r.2)

/-- Model of `REST.ping_server`: POST `tickle`. -/
def ping_server (s : RESTState) (w : World) : Res (JVal × RESTState) × World :=
  let r := doRequest (.post (s.url ++ "tickle") JVal.null) w
  (.ok (r.1, s), r.2)

/-- Model of `REST.get_auth_status`: POST `iserver/auth/status`. -/
def get_auth_status (s : RESTState) (w : World) :
    Res (JVal × RESTState) × World :=
  let r := doRequest (.post (s.url ++ "iserver/auth/status") JVal.null) w
  (.ok (r.1, s), r.2)

/-- Model of `REST.re_authenticate`: POST `iserver/reauthenticate`; the Python
method returns `None`. -/
def re_authenticate (s : RESTState) (w : World) :
    Res (JVal × RESTState) × World :=
  let r := doRequest (.post (s.url ++ "iserver/reauthenticate") JVal.null) w
  (.ok (JVal.null, s), r.2)

/-- Model of `REST.log_out`: POST `logout`; the Python method returns `None`. -/
def log_out (s : RESTState) (w : World) : Res (JVal × RESTState) × World :=
  let r := doRequest (.post (s.url ++ "logout") JVal.null) w
  (.ok (JVal.null, s), r.2)

/-- Model of `REST.get_bars`: resolve `conid` via `get_conid` when it equals
`"default"`, then GET `iserver/marketdata/history` with the query built
from `int(conid)`, `period`, `bar` and `outsideRth`. -/
def get_bars (s : RESTState) (symbol : String) (period bar : String)
    (outsideRth : Bool) (conid : JVal) (w : World) :
    Res (JVal × RESTState) × World :=
  let step : Res (JVal × RESTState) × World :=
    if jeqStr conid "default" then get_conid s symbol w
    else (.ok (conid, s), w)
  match step with
  | (.ok (conid2, s2), w1) =>
    match pyInt conid2 with
    | .error e => (.exn e, w1)
    | .ok n =>
      let query := JVal.obj
        [("conid", JVal.num n), ("period", JVal.str period),
         ("bar", JVal.str bar), ("outsideRth", JVal.bool outsideRth)]
      let r := doRequest (.get (s2.url ++ "iserver/marketdata/history") query) w1
      (.ok (r.1, s2), r.2)
  | (.exn e, w1) => (.exn e, w1)
  | (.diverge, w1) => (.diverge, w1)

/-- Model of `REST.get_fut_conids`: GET `trsrv/futures?symbols=<symbol>`, return
`body[symbol]`. -/
def get_fut_conids (s : RESTState) (symbol : String) (w : World) :
    Res (JVal × RESTState) × World :=
  let r := doRequest
    (.get (s.url ++ "trsrv/futures") (JVal.obj [("symbols", JVal.str symbol)])) w
  match objGet r.1 symbol with
  | .error e => (.exn e, r.2)
  | .ok v => (.ok (v, s), r.2)

/-- Model of `REST.symbol_search`: POST `iserver/secdef/search` with the symbol
query body. -/
def symbol_search (s : RESTState) (symbol : String) (secType : String)
    (w : World) : Res (JVal × RESTState) × World :=
  let data := JVal.obj
    [("symbol", JVal.str symbol), ("name", JVal.bool true),
     ("secType", JVal.str secType)]
  let r := doRequest (.post (s.url ++ "iserver/secdef/search") data) w
  (.ok (r.1, s), r.2)

/-- Model of `REST.get_strikes`: GET `iserver/secdef/strikes` with the query built
from the four parameters. -/
def get_strikes (s : RESTState) (conid secType month exchange : JVal)
    (w : World) : Res (JVal × RESTState) × World :=
  let query := JVal.obj
    [("conid", conid), ("secType", secType), ("month", month),
     ("exchange", exchange)]
  let r := doRequest (.get (s.url ++ "iserver/secdef/strikes") query) w
  (.ok (r.1, s), r.2)

/-- Calling a JSON value as a function, as in `args()` where
`args = locals()`: no JSON value is callable, so Python raises
`TypeError` (a dict object is not callable). -/
def pyCallValue : JVal → Except PyErr JVal :=
  fun _ => .error .typeError

/-- Python `dict(k, v)` with two positional arguments, as in
`dict(key, args()[key])`: `dict` accepts at most one positional argument,
so this raises `TypeError`. -/
def pyDictOfTwoArgs : JVal → JVal → Except PyErr JVal :=
  fun _ _ => .error .typeError

/-- Python `query.update(d)` where `d` is an arbitrary value: merge a dict
into the accumulator, `TypeError` on a non-dict. -/
def dictUpdateObj (q : List (String × JVal)) : JVal →
    Except PyErr (List (String × JVal))
  | .obj fs => .ok (fs.foldl (fun acc p => dictUpdate acc p.1 p.2) q)
  | _ => .error .typeError

/-- Model of `REST.get_info`: `args = locals()` (the parameter mapping; the `self`
entry is omitted as `args` is only ever called, never read), then for each
parameter name evaluate `args()[key]` — which calls the dict `args` as a
function — and on a truthy value `query.update(dict(key, args()[key]))`;
finally GET `iserver/secdef/strikes`.  The first loop iteration already
raises `TypeError` at `args()`. -/
def get_info (s : RESTState) (conid secType month exchange strike : JVal)
    (w : World) : Res (JVal × RESTState) × World :=
  let args := JVal.obj
    [("conid", conid), ("secType", secType), ("month", month),
     ("exchange", exchange), ("strike", strike)]
  let folded : Except PyErr (List (String × JVal)) :=
    ["conid", "secType", "month", "exchange", "strike"].foldlM
      (fun query key => do
        let f ← pyCallValue args
        let v ← objGet f key
        if jTruthy v then
          let f2 ← pyCallValue args
          let v2 ← objGet f2 key
          let kv ← pyDictOfTwoArgs (JVal.str key) v2
          dictUpdateObj query kv
        else pure query)
      []
  match folded with
  | .error e => (.exn e, w)
  | .ok query =>
    let r := doRequest (.get (s.url ++ "iserver/secdef/strikes") (JVal.obj query)) w
    (.ok (r.1, s), r.2)

/-! ## Chain predicates and helper lemmas -/

/-- A well-formed Confirmation Message: a mapping without the terminal
`"order_id"` field, carrying a `"message"` field and a string-valued
`"id"` field. -/
def IsConfMsg (d : JVal) : Prop :=
  objHasKey d "order_id" = Except.ok false ∧
  (∃ m, objGet d "message" = Except.ok m) ∧
  (∃ i, objGet d "id" = Except.ok (JVal.str i))

/-- Model of `ChainShape confs final dic0 env pos`: starting from the current
element `dic0`, the vendor's response chain consists of the Confirmation
Messages `confs` followed by the terminal element `final`; the reply to
the k-th confirmation is the response at stream position `pos + k`, an
array whose first element is the next element of the chain. -/
def ChainShape : List JVal → JVal → JVal → (Nat → JVal) → Nat → Prop
  | [], final, dic0, _, _ => dic0 = final
  | c :: cs, final, dic0, env, pos =>
    dic0 = c ∧ IsConfMsg c ∧
      ∃ d1 extra, env pos = JVal.arr (d1 :: extra) ∧
        ChainShape cs final d1 env (pos + 1)

/-- From position `pos` on, every vendor response is an array headed by a
well-formed Confirmation Message: the vendor never produces a terminal
element. -/
def AllConfEnv (env : Nat → JVal) (pos : Nat) : Prop :=
  ∀ n, pos ≤ n → ∃ d extra, env n = JVal.arr (d :: extra) ∧ IsConfMsg d

/-- Evaluating `reply_yes` on a string id against a non-empty response
array: one POST to the reply endpoint, returning the array head. -/
theorem reply_yes_str_eval (s : RESTState) (i : String) (d : JVal)
    (extra : List JVal) (w : World)
    (h : w.env w.next = JVal.arr (d :: extra)) :
    reply_yes s (JVal.str i) w
      = (.ok (d, s),
         ⟨w.env, w.next + 1,
          w.trace ++ [Call.post ((s.url ++ "iserver/reply/") ++ i)
            (JVal.obj [("confirmed", JVal.bool true)])]⟩) := by
  simp [reply_yes, asStrConcat, doRequest, h, jsonIndex0]

/-- Model of `reply_yes` only extends the trace. -/
theorem reply_yes_trace (s : RESTState) (idv : JVal) (w : World) :
    ∃ t, (reply_yes s idv w).2.trace = w.trace ++ t := by
  simp only [reply_yes, doRequest]
  split
  · exact ⟨[], (List.append_nil _).symm⟩
  · split
    · exact ⟨_, rfl⟩
    · exact ⟨_, rfl⟩

/-- A normal return of `reply_yes` leaves the client state unchanged. -/
theorem reply_yes_ok_state (s : RESTState) (idv : JVal) (w : World)
    (d : JVal) (s2 : RESTState) (w2 : World)
    (h : reply_yes s idv w = (.ok (d, s2), w2)) : s2 = s := by
  simp only [reply_yes, doRequest] at h
  split at h
  · simp at h
  · split at h
    · simp at h
    · simp only [Prod.mk.injEq, Res.ok.injEq] at h
      exact h.1.2.symm

/-- The confirmation loop only extends the trace. -/
theorem replyLoopAux_trace (fuel : Nat) :
    ∀ (s : RESTState) (dic : JVal) (w : World),
      ∃ t, (replyLoopAux s fuel dic w).2.trace = w.trace ++ t := by
  induction fuel with
  | zero =>
    intro s dic w
    exact ⟨[], (List.append_nil _).symm⟩
  | succ n ih =>
    intro s dic w
    simp only [replyLoopAux]
    split
    · exact ⟨[], (List.append_nil _).symm⟩
    · exact ⟨[], (List.append_nil _).symm⟩
    · split
      · exact ⟨[], (List.append_nil _).symm⟩
      · split
        · exact ⟨[], (List.append_nil _).symm⟩
        · split
          · rename_i d s1 w1 heq
            obtain ⟨t1, ht1⟩ := reply_yes_trace s _ w
            rw [heq] at ht1
            obtain ⟨t2, ht2⟩ := ih s1 d w1
            exact ⟨t1 ++ t2, by rw [ht2, ht1, List.append_assoc]⟩
          · rename_i e w1 heq
            obtain ⟨t1, ht1⟩ := reply_yes_trace s _ w
            rw [heq] at ht1
            exact ⟨t1, ht1⟩
          · rename_i w1 heq
            obtain ⟨t1, ht1⟩ := reply_yes_trace s _ w
            rw [heq] at ht1
            exact ⟨t1, ht1⟩

/-- A normal return of the confirmation loop yields a mapping containing
`"order_id"` and leaves the client state unchanged. -/
theorem replyLoopAux_ok (fuel : Nat) :
    ∀ (s : RESTState) (dic : JVal) (w : World) (d : JVal) (s' : RESTState)
      (w' : World),
      replyLoopAux s fuel dic w = (.ok (d, s'), w') →
      objHasKey d "order_id" = Except.ok true ∧ s' = s := by
  induction fuel with
  | zero =>
    intro s dic w d s' w' h
    simp [replyLoopAux] at h
  | succ n ih =>
    intro s dic w d s' w' h
    simp only [replyLoopAux] at h
    cases hk : objHasKey dic "order_id" with
    | error e => simp only [hk] at h; simp at h
    | ok b =>
      simp only [hk] at h
      cases b with
      | true =>
        simp only [Prod.mk.injEq, Res.ok.injEq] at h
        obtain ⟨⟨hd, hs⟩, -⟩ := h
        subst hd; subst hs
        exact ⟨hk, rfl⟩
      | false =>
        cases hm : objGet dic "message" with
        | error e => simp only [hm] at h; simp at h
        | ok m =>
          simp only [hm] at h
          cases hi : objGet dic "id" with
          | error e => simp only [hi] at h; simp at h
          | ok idv =>
            simp only [hi] at h
            cases hr : reply_yes s idv w with
            | mk res w1 =>
              simp only [hr] at h
              cases res with
              | ok a =>
                obtain ⟨d2, s2⟩ := a
                have hs2 : s2 = s := reply_yes_ok_state s idv w d2 s2 w1 hr
                obtain ⟨h1, h2⟩ := ih s2 d2 w1 d s' w' h
                exact ⟨h1, h2.trans hs2⟩
              | exn e => simp at h
              | diverge => simp at h

/-- Running the confirmation loop against a response chain of `confs`
well-formed Confirmation Messages followed by the terminal element `final`,
with enough fuel: the loop returns `final` unchanged, consumes exactly
`confs.length` vendor responses, and appends exactly `confs.length` reply
POSTs to the trace. -/
theorem replyLoopAux_chain (confs : List JVal) :
    ∀ (s : RESTState) (final dic0 : JVal) (w : World) (fuel : Nat),
      confs.length < fuel →
      ChainShape confs final dic0 w.env w.next →
      objHasKey final "order_id" = Except.ok true →
      ∃ replies : List Call,
        replyLoopAux s fuel dic0 w
          = (.ok (final, s), ⟨w.env, w.next + confs.length, w.trace ++ replies⟩)
        ∧ replies.length = confs.length
        ∧ ∀ c ∈ replies, ∃ i,
            c = Call.post ((s.url ++ "iserver/reply/") ++ i)
              (JVal.obj [("confirmed", JVal.bool true)]) := by
  induction confs with
  | nil =>
    intro s final dic0 w fuel hf hch hfin
    obtain rfl : dic0 = final := hch
    cases fuel with
    | zero => omega
    | succ n =>
      refine ⟨[], ?_, rfl, by simp⟩
      simp [replyLoopAux, hfin]
  | cons c cs ih =>
    intro s final dic0 w fuel hf hch hfin
    obtain ⟨rfl, hconf, d1, extra, henv, hch1⟩ := hch
    obtain ⟨hk, ⟨m, hm⟩, ⟨i, hi⟩⟩ := hconf
    cases fuel with
    | zero => omega
    | succ n =>
      have hry := reply_yes_str_eval s i d1 extra w henv
      have hn : cs.length < n := by
        simp only [List.length_cons] at hf; omega
      obtain ⟨replies, heq, hlen, hmem⟩ :=
        ih s final d1 ⟨w.env, w.next + 1,
          w.trace ++ [Call.post ((s.url ++ "iserver/reply/") ++ i)
            (JVal.obj [("confirmed", JVal.bool true)])]⟩ n hn hch1 hfin
      refine ⟨Call.post ((s.url ++ "iserver/reply/") ++ i)
        (JVal.obj [("confirmed", JVal.bool true)]) :: replies, ?_, ?_, ?_⟩
      · simp only [replyLoopAux, hk, hm, hi, hry]
        rw [heq]
        have hW : (⟨w.env, w.next + 1 + cs.length,
            (w.trace ++ [Call.post ((s.url ++ "iserver/reply/") ++ i)
              (JVal.obj [("confirmed", JVal.bool true)])]) ++ replies⟩ : World)
            = ⟨w.env, w.next + (cs.length + 1),
               w.trace ++ (Call.post ((s.url ++ "iserver/reply/") ++ i)
                 (JVal.obj [("confirmed", JVal.bool true)]) :: replies)⟩ := by
          rw [show w.next + 1 + cs.length = w.next + (cs.length + 1) from by omega,
            List.append_assoc]
          rfl
        exact congrArg _ hW
      · simp [hlen]
      · intro x hx
        rcases List.mem_cons.mp hx with hx | hx
        · exact ⟨i, hx⟩
        · exact hmem x hx

/-- Against a vendor that forever answers with well-formed Confirmation
Messages, the confirmation loop exhausts any amount of fuel: it runs
indefinitely. -/
theorem replyLoopAux_diverge (fuel : Nat) :
    ∀ (s : RESTState) (dic : JVal) (w : World),
      IsConfMsg dic → AllConfEnv w.env w.next →
      (replyLoopAux s fuel dic w).1 = Res.diverge := by
  induction fuel with
  | zero => intro s dic w _ _; rfl
  | succ n ih =>
    intro s dic w hconf hall
    obtain ⟨hk, ⟨m, hm⟩, ⟨i, hi⟩⟩ := hconf
    obtain ⟨d1, extra, henv, hconf1⟩ := hall w.next (le_refl _)
    have hry := reply_yes_str_eval s i d1 extra w henv
    simp only [replyLoopAux, hk, hm, hi, hry]
    have hall1 : AllConfEnv w.env (w.next + 1) :=
      fun j hj => hall j (Nat.le_of_succ_le hj)
    exact ih s d1 _ hconf1 hall1

/-! ## Claim theorems -/

/-- A concrete client state shared by the witness examples below. -/
def exS : RESTState :=
  ⟨"https://localhost:5000/v1/api/", false, JVal.str "DU1"⟩

/-- A concrete Confirmation Message used by the witness examples. -/
def exConf : JVal :=
  JVal.obj [("id", JVal.str "m1"), ("message", JVal.str "Risk warning")]

/-- A concrete terminal Order Result used by the witness examples. -/
def exFinal : JVal := JVal.obj [("order_id", JVal.str "998877")]

/-- A concrete Order Request used by the witness examples. -/
def exOrder : JVal :=
  JVal.obj [("conid", JVal.num 265598), ("orderType", JVal.str "MKT"),
    ("side", JVal.str "BUY"), ("quantity", JVal.num 7),
    ("tif", JVal.str "GTC")]

/-- A vendor that answers first with one Confirmation Message, then with
the terminal Order Result. -/
def exEnv : Nat → JVal := fun n =>
  if n = 0 then JVal.arr [exConf]
  else if n = 1 then JVal.arr [exFinal]
  else JVal.null

/-- C1: for a submission whose vendor response chain contains exactly
N (= `confs.length`) Confirmation Messages before a terminal Order Result,
`submit_orders` with `reply_yes = true` performs exactly N+1 network calls
(one order-placement POST plus N reply POSTs) and returns the terminal
result unchanged; with `confs = []` this is the one-call case where the
initial response element already carries `"order_id"`. -/
theorem C1_submit_orders_auto_confirm (s : RESTState) (acct : String)
    (list_of_orders : List JVal) (confs : List JVal) (final dic0 : JVal)
    (extra0 : List JVal) (w : World) (fuel : Nat)
    (hid : s.id = JVal.str acct)
    (hfuel : confs.length < fuel)
    (h0 : w.env w.next = JVal.arr (dic0 :: extra0))
    (hchain : ChainShape confs final dic0 w.env (w.next + 1))
    (hfin : objHasKey final "order_id" = Except.ok true) :
    ∃ replies : List Call,
      submit_orders s fuel list_of_orders true w
        = (.ok (final, s),
           ⟨w.env, w.next + 1 + confs.length,
            w.trace ++
              (Call.post (((s.url ++ "iserver/account/") ++ acct) ++ "/orders")
                  (JVal.obj [("orders", JVal.arr list_of_orders)]) :: replies)⟩)
      ∧ (Call.post (((s.url ++ "iserver/account/") ++ acct) ++ "/orders")
            (JVal.obj [("orders", JVal.arr list_of_orders)]) :: replies).length
          = confs.length + 1
      ∧ ∀ c ∈ replies, ∃ i,
          c = Call.post ((s.url ++ "iserver/reply/") ++ i)
            (JVal.obj [("confirmed", JVal.bool true)]) := by
  obtain ⟨replies, heq, hlen, hmem⟩ :=
    replyLoopAux_chain confs s final dic0
      ⟨w.env, w.next + 1,
        w.trace ++ [Call.post (((s.url ++ "iserver/account/") ++ acct) ++ "/orders")
          (JVal.obj [("orders", JVal.arr list_of_orders)])]⟩
      fuel hfuel hchain hfin
  refine ⟨replies, ?_, by simp [hlen], hmem⟩
  simp only [submit_orders, hid, asStrConcat, doRequest, reply_all_yes, h0,
    jsonIndex0, if_true]
  rw [heq]
  have hW : (⟨w.env, w.next + 1 + confs.length,
      (w.trace ++ [Call.post (((s.url ++ "iserver/account/") ++ acct) ++ "/orders")
        (JVal.obj [("orders", JVal.arr list_of_orders)])]) ++ replies⟩ : World)
      = ⟨w.env, w.next + 1 + confs.length,
         w.trace ++
           (Call.post (((s.url ++ "iserver/account/") ++ acct) ++ "/orders")
             (JVal.obj [("orders", JVal.arr list_of_orders)]) :: replies)⟩ := by
    rw [List.append_assoc]
    rfl
  exact congrArg _ hW

/-- Witness for C1 at the spec's own example: one Risk-warning prompt, then
the terminal result after exactly 2 calls. -/
theorem C1_witness :
    ([exConf].length < 2) ∧
    ∃ replies : List Call,
      submit_orders exS 2 [exOrder] true ⟨exEnv, 0, []⟩
        = (.ok (exFinal, exS),
           ⟨exEnv, 0 + 1 + [exConf].length,
            [] ++
              (Call.post (((exS.url ++ "iserver/account/") ++ "DU1") ++ "/orders")
                  (JVal.obj [("orders", JVal.arr [exOrder])]) :: replies)⟩)
      ∧ (Call.post (((exS.url ++ "iserver/account/") ++ "DU1") ++ "/orders")
            (JVal.obj [("orders", JVal.arr [exOrder])]) :: replies).length
          = [exConf].length + 1
      ∧ ∀ c ∈ replies, ∃ i,
          c = Call.post ((exS.url ++ "iserver/reply/") ++ i)
            (JVal.obj [("confirmed", JVal.bool true)]) :=
  ⟨by decide,
   C1_submit_orders_auto_confirm exS "DU1" [exOrder] [exConf] exFinal exConf
     [] ⟨exEnv, 0, []⟩ 2 rfl (by decide) rfl
     ⟨rfl, ⟨rfl, ⟨JVal.str "Risk warning", rfl⟩, ⟨"m1", rfl⟩⟩,
      exFinal, [], rfl, rfl⟩
     rfl⟩

/-- C2 counterexample: a vendor that never produces a terminal element
(every response is `[{}]`) does not make the loop run indefinitely — the
very first iteration raises `KeyError: 'message'` and the loop stops, with
no reply call made, although no element of the chain contains
`"order_id"`.  The same abrupt stop happens for any larger fuel, so this is
genuine termination, not fuel exhaustion. -/
theorem C2_counterexample :
    (replyLoopAux exS 1 (JVal.obj [])
        ⟨fun _ => JVal.arr [JVal.obj []], 0, []⟩).1
      = Res.exn (PyErr.keyError "message")
    ∧ (replyLoopAux exS 1000 (JVal.obj [])
        ⟨fun _ => JVal.arr [JVal.obj []], 0, []⟩).1
      = Res.exn (PyErr.keyError "message")
    ∧ objHasKey (JVal.obj []) "order_id" = Except.ok false
    ∧ (replyLoopAux exS 1 (JVal.obj [])
        ⟨fun _ => JVal.arr [JVal.obj []], 0, []⟩).2.trace = [] :=
  ⟨rfl, rfl, rfl, rfl⟩

/-- C2 (amended): with auto-confirmation, (i) whenever the loop returns a
mapping, that mapping contains `"order_id"`; (ii) if the response chain
consists of well-formed Confirmation Messages followed by a terminal
element, the loop terminates on that terminal element; (iii) if every
response element is a well-formed Confirmation Message and no terminal
element ever appears, the loop runs forever — it exhausts every amount of
fuel with no timeout or iteration bound.  (The unamended claim fails when a
non-terminal element is malformed: see the counterexample.) -/
theorem C2_loop_termination_amended :
    (∀ (s : RESTState) (fuel : Nat) (dic : JVal) (w : World) (d : JVal)
        (s' : RESTState) (w' : World),
        replyLoopAux s fuel dic w = (.ok (d, s'), w') →
        objHasKey d "order_id" = Except.ok true)
    ∧ (∀ (s : RESTState) (confs : List JVal) (final dic0 : JVal) (w : World)
        (fuel : Nat),
        confs.length < fuel →
        ChainShape confs final dic0 w.env w.next →
        objHasKey final "order_id" = Except.ok true →
        ∃ w', replyLoopAux s fuel dic0 w = (.ok (final, s), w'))
    ∧ (∀ (s : RESTState) (fuel : Nat) (dic : JVal) (w : World),
        IsConfMsg dic → AllConfEnv w.env w.next →
        (replyLoopAux s fuel dic w).1 = Res.diverge) := by
  refine ⟨?_, ?_, ?_⟩
  · intro s fuel dic w d s' w' h
    exact (replyLoopAux_ok fuel s dic w d s' w' h).1
  · intro s confs final dic0 w fuel hf hch hfin
    obtain ⟨replies, heq, -, -⟩ :=
      replyLoopAux_chain confs s final dic0 w fuel hf hch hfin
    exact ⟨_, heq⟩
  · exact fun s fuel dic w h1 h2 => replyLoopAux_diverge fuel s dic w h1 h2

/-- Witness for C2: each amended conjunct applied at a concrete input —
a terminal first element, a one-confirmation chain, and an
all-confirmations vendor. -/
theorem C2_witness :
    objHasKey exFinal "order_id" = Except.ok true
    ∧ (∃ w', replyLoopAux exS 2 exConf ⟨exEnv, 1, []⟩ = (.ok (exFinal, exS), w'))
    ∧ (replyLoopAux exS 5 exConf ⟨fun _ => JVal.arr [exConf], 0, []⟩).1
        = Res.diverge :=
  ⟨C2_loop_termination_amended.1 exS 1 exFinal ⟨exEnv, 0, []⟩ exFinal exS
     ⟨exEnv, 0, []⟩ rfl,
   C2_loop_termination_amended.2.1 exS [exConf] exFinal exConf ⟨exEnv, 1, []⟩
     2 (by decide)
     ⟨rfl, ⟨rfl, ⟨JVal.str "Risk warning", rfl⟩, ⟨"m1", rfl⟩⟩,
      exFinal, [], rfl, rfl⟩
     rfl,
   C2_loop_termination_amended.2.2 exS 5 exConf
     ⟨fun _ => JVal.arr [exConf], 0, []⟩
     ⟨rfl, ⟨JVal.str "Risk warning", rfl⟩, ⟨"m1", rfl⟩⟩
     (fun n _ => ⟨exConf, [],
        rfl, ⟨rfl, ⟨JVal.str "Risk warning", rfl⟩, ⟨"m1", rfl⟩⟩⟩)⟩

/-- C3: `submit_orders` with `reply_yes = false` performs exactly one
network call — the order-placement POST, which is not a reply-endpoint
call — and returns the first element of the response array unmodified,
whatever that element is. -/
theorem C3_submit_orders_no_auto_confirm (s : RESTState) (acct : String)
    (list_of_orders : List JVal) (fuel : Nat) (d : JVal) (extra : List JVal)
    (w : World)
    (hid : s.id = JVal.str acct)
    (h0 : w.env w.next = JVal.arr (d :: extra)) :
    submit_orders s fuel list_of_orders false w
      = (.ok (d, s),
         ⟨w.env, w.next + 1,
          w.trace ++ [Call.post (((s.url ++ "iserver/account/") ++ acct) ++ "/orders")
            (JVal.obj [("orders", JVal.arr list_of_orders)])]⟩)
    ∧ ∀ i, Call.post (((s.url ++ "iserver/account/") ++ acct) ++ "/orders")
          (JVal.obj [("orders", JVal.arr list_of_orders)])
        ≠ Call.post ((s.url ++ "iserver/reply/") ++ i)
          (JVal.obj [("confirmed", JVal.bool true)]) := by
  constructor
  · simp [submit_orders, hid, asStrConcat, doRequest, reply_all_yes, h0,
      jsonIndex0]
  · intro i h
    simp [Call.post.injEq] at h

/-- Witness for C3: a single call, returning the Confirmation Message
itself, with zero fuel (the loop is never entered). -/
theorem C3_witness :
    submit_orders exS 0 [exOrder] false ⟨exEnv, 0, []⟩
      = (.ok (exConf, exS),
         ⟨exEnv, 0 + 1,
          [] ++ [Call.post (((exS.url ++ "iserver/account/") ++ "DU1") ++ "/orders")
            (JVal.obj [("orders", JVal.arr [exOrder])])]⟩)
    ∧ ∀ i, Call.post (((exS.url ++ "iserver/account/") ++ "DU1") ++ "/orders")
          (JVal.obj [("orders", JVal.arr [exOrder])])
        ≠ Call.post ((exS.url ++ "iserver/reply/") ++ i)
          (JVal.obj [("confirmed", JVal.bool true)]) :=
  C3_submit_orders_no_auto_confirm exS "DU1" [exOrder] 0 exConf [] ⟨exEnv, 0, []⟩
    rfl rfl

/-- C4: `reply_yes` on a confirmation identifier performs exactly one
network call — an affirmative POST to the reply endpoint named by the
identifier — and returns the first element of the vendor's response array
unmodified. -/
theorem C4_reply_yes_single_call (s : RESTState) (i : String) (d : JVal)
    (extra : List JVal) (w : World)
    (h0 : w.env w.next = JVal.arr (d :: extra)) :
    reply_yes s (JVal.str i) w
      = (.ok (d, s),
         ⟨w.env, w.next + 1,
          w.trace ++ [Call.post ((s.url ++ "iserver/reply/") ++ i)
            (JVal.obj [("confirmed", JVal.bool true)])]⟩) :=
  reply_yes_str_eval s i d extra w h0

/-- Witness for C4 at a concrete reply that returns the terminal Order
Result. -/
theorem C4_witness :
    reply_yes exS (JVal.str "m1") ⟨exEnv, 1, []⟩
      = (.ok (exFinal, exS),
         ⟨exEnv, 1 + 1,
          [] ++ [Call.post ((exS.url ++ "iserver/reply/") ++ "m1")
            (JVal.obj [("confirmed", JVal.bool true)])]⟩) :=
  C4_reply_yes_single_call exS "m1" exFinal [] ⟨exEnv, 1, []⟩ rfl

/-- C5: `modify_order` with `orderId = None` or `order = None` fails the
assertion synchronously: the result is an `AssertionError` and the world —
in particular the call trace — is untouched, so the modification endpoint
is never contacted. -/
theorem C5_modify_order_precondition (s : RESTState) (fuel : Nat)
    (orderId order : JVal) (reply : Bool) (w : World)
    (h : orderId = JVal.null ∨ order = JVal.null) :
    modify_order s fuel orderId order reply w
      = (.exn PyErr.assertionError, w) := by
  rcases h with rfl | rfl
  · simp [modify_order, JVal.isNull]
  · simp [modify_order, JVal.isNull]

/-- Witness for C5 at `modify_order(None, None)`. -/
theorem C5_witness :
    modify_order exS 1 JVal.null JVal.null true ⟨exEnv, 0, []⟩
      = (.exn PyErr.assertionError, ⟨exEnv, 0, []⟩) :=
  C5_modify_order_precondition exS 1 JVal.null JVal.null true ⟨exEnv, 0, []⟩
    (Or.inl rfl)

/-- C7: `get_info` raises `TypeError` before performing any network call,
for every input: `args = locals()` is a mapping and the loop body calls it
as a function, so the HTTP request below is dead code. -/
theorem C7_get_info_dead_code (s : RESTState)
    (conid secType month exchange strike : JVal) (w : World) :
    get_info s conid secType month exchange strike w
      = (.exn PyErr.typeError, w) := rfl

/-- A value different from `None` is not `isNull`. -/
theorem isNull_eq_false {v : JVal} (h : v ≠ JVal.null) : v.isNull = false := by
  cases v <;> first | rfl | exact absurd rfl h

/-- Model of `_reply_all_yes` only extends the trace. -/
theorem reply_all_yes_trace (s : RESTState) (fuel : Nat) (body : JVal)
    (ry : Bool) (w : World) :
    ∃ t, (reply_all_yes s fuel body ry w).2.trace = w.trace ++ t := by
  simp only [reply_all_yes]
  split
  · exact ⟨[], (List.append_nil _).symm⟩
  · split
    · exact replyLoopAux_trace fuel s _ w
    · exact ⟨[], (List.append_nil _).symm⟩

/-- C10: when the current element lacks `"order_id"`, the loop first
evaluates `dic["message"]` and then `dic["id"]`; if either key is missing
the iteration raises the corresponding `KeyError` — no reply is sent and
nothing is returned, the world is untouched. -/
theorem C10_malformed_confirmation_key_error (s : RESTState) (fuel : Nat)
    (dic : JVal) (w : World)
    (hnt : objHasKey dic "order_id" = Except.ok false) :
    (objGet dic "message" = Except.error (PyErr.keyError "message") →
       replyLoopAux s (fuel + 1) dic w
         = (.exn (PyErr.keyError "message"), w))
    ∧ (∀ m, objGet dic "message" = Except.ok m →
        objGet dic "id" = Except.error (PyErr.keyError "id") →
        replyLoopAux s (fuel + 1) dic w
          = (.exn (PyErr.keyError "id"), w)) := by
  constructor
  · intro hm
    simp [replyLoopAux, hnt, hm]
  · intro m hm hi
    simp [replyLoopAux, hnt, hm, hi]

/-- Witness for C10: a non-terminal element without `"message"`, and one
with `"message"` but without `"id"`. -/
theorem C10_witness :
    replyLoopAux exS 1 (JVal.obj [("id", JVal.str "x")]) ⟨exEnv, 0, []⟩
      = (.exn (PyErr.keyError "message"), ⟨exEnv, 0, []⟩)
    ∧ replyLoopAux exS 1 (JVal.obj [("message", JVal.str "hi")]) ⟨exEnv, 0, []⟩
      = (.exn (PyErr.keyError "id"), ⟨exEnv, 0, []⟩) :=
  ⟨(C10_malformed_confirmation_key_error exS 0
      (JVal.obj [("id", JVal.str "x")]) ⟨exEnv, 0, []⟩ rfl).1 rfl,
   (C10_malformed_confirmation_key_error exS 0
      (JVal.obj [("message", JVal.str "hi")]) ⟨exEnv, 0, []⟩ rfl).2
     (JVal.str "hi") rfl rfl⟩

/-- C8: when the vendor's response array is empty, `submit_orders`,
`reply_yes` and `modify_order` raise `IndexError` at the `[0]` access
right after their single network call, instead of returning a mapping. -/
theorem C8_empty_response_index_error (s : RESTState) (acct : String)
    (w : World) :
    (∀ (orders : List JVal) (fuel : Nat) (ry : Bool),
       s.id = JVal.str acct →
       w.env w.next = JVal.arr [] →
       submit_orders s fuel orders ry w
         = (.exn PyErr.indexError,
            ⟨w.env, w.next + 1,
             w.trace ++ [Call.post (((s.url ++ "iserver/account/") ++ acct) ++ "/orders")
               (JVal.obj [("orders", JVal.arr orders)])]⟩))
    ∧ (∀ i : String,
       w.env w.next = JVal.arr [] →
       reply_yes s (JVal.str i) w
         = (.exn PyErr.indexError,
            ⟨w.env, w.next + 1,
             w.trace ++ [Call.post ((s.url ++ "iserver/reply/") ++ i)
               (JVal.obj [("confirmed", JVal.bool true)])]⟩))
    ∧ (∀ (orderId order : JVal) (fuel : Nat) (ry : Bool),
       s.id = JVal.str acct →
       orderId ≠ JVal.null → order ≠ JVal.null →
       w.env w.next = JVal.arr [] →
       modify_order s fuel orderId order ry w
         = (.exn PyErr.indexError,
            ⟨w.env, w.next + 1,
             w.trace ++ [Call.post ((((s.url ++ "iserver/account/") ++ acct)
               ++ "/order/") ++ pyStr orderId) order]⟩)) := by
  refine ⟨?_, ?_, ?_⟩
  · intro orders fuel ry hid h0
    simp [submit_orders, hid, asStrConcat, doRequest, reply_all_yes, h0,
      jsonIndex0]
  · intro i h0
    simp [reply_yes, asStrConcat, doRequest, h0, jsonIndex0]
  · intro orderId order fuel ry hid h1 h2 h0
    simp [modify_order, isNull_eq_false h1, isNull_eq_false h2, hid,
      asStrConcat, doRequest, reply_all_yes, h0, jsonIndex0]

/-- Witness for C8: a vendor that always answers `[]`. -/
theorem C8_witness :
    (submit_orders exS 3 [exOrder] true ⟨fun _ => JVal.arr [], 0, []⟩
       = (.exn PyErr.indexError,
          ⟨fun _ => JVal.arr [], 0 + 1,
           [] ++ [Call.post (((exS.url ++ "iserver/account/") ++ "DU1") ++ "/orders")
             (JVal.obj [("orders", JVal.arr [exOrder])])]⟩))
    ∧ (reply_yes exS (JVal.str "m1") ⟨fun _ => JVal.arr [], 0, []⟩
       = (.exn PyErr.indexError,
          ⟨fun _ => JVal.arr [], 0 + 1,
           [] ++ [Call.post ((exS.url ++ "iserver/reply/") ++ "m1")
             (JVal.obj [("confirmed", JVal.bool true)])]⟩))
    ∧ (modify_order exS 3 (JVal.str "42") exOrder true
         ⟨fun _ => JVal.arr [], 0, []⟩
       = (.exn PyErr.indexError,
          ⟨fun _ => JVal.arr [], 0 + 1,
           [] ++ [Call.post ((((exS.url ++ "iserver/account/") ++ "DU1")
             ++ "/order/") ++ pyStr (JVal.str "42")) exOrder]⟩)) :=
  ⟨(C8_empty_response_index_error exS "DU1" ⟨fun _ => JVal.arr [], 0, []⟩).1
     [exOrder] 3 true rfl rfl,
   (C8_empty_response_index_error exS "DU1" ⟨fun _ => JVal.arr [], 0, []⟩).2.1
     "m1" rfl,
   (C8_empty_response_index_error exS "DU1" ⟨fun _ => JVal.arr [], 0, []⟩).2.2
     (JVal.str "42") exOrder 3 true rfl (fun h => JVal.noConfusion h)
     (fun h => JVal.noConfusion h) rfl⟩

/-- C9: the `modify_order` precondition rejects only `None`: for any
non-`None` arguments — in particular falsy ones such as `""` or `{}` — the
assertion passes and the POST to the order-modification endpoint is
issued. -/
theorem C9_modify_order_none_only (s : RESTState) (acct : String)
    (fuel : Nat) (orderId order : JVal) (ry : Bool) (w : World)
    (hid : s.id = JVal.str acct)
    (h1 : orderId ≠ JVal.null) (h2 : order ≠ JVal.null) :
    ∃ rest,
      (modify_order s fuel orderId order ry w).2.trace
        = w.trace ++
            (Call.post ((((s.url ++ "iserver/account/") ++ acct)
                ++ "/order/") ++ pyStr orderId) order :: rest) := by
  simp only [modify_order, isNull_eq_false h1, isNull_eq_false h2, hid,
    asStrConcat, Bool.not_false, Bool.and_self, if_true, doRequest]
  obtain ⟨t, ht⟩ := reply_all_yes_trace s fuel (w.env w.next) ry
    ⟨w.env, w.next + 1,
     w.trace ++ [Call.post ((((s.url ++ "iserver/account/") ++ acct)
       ++ "/order/") ++ pyStr orderId) order]⟩
  refine ⟨t, ?_⟩
  rw [ht, List.append_assoc]
  rfl

/-- Witness for C9 at the falsy non-`None` arguments `orderId = ""`,
`order = {}`. -/
theorem C9_witness :
    ∃ rest,
      (modify_order exS 1 (JVal.str "") (JVal.obj []) false
          ⟨exEnv, 1, []⟩).2.trace
        = [] ++
            (Call.post ((((exS.url ++ "iserver/account/") ++ "DU1")
                ++ "/order/") ++ pyStr (JVal.str "")) (JVal.obj []) :: rest) :=
  C9_modify_order_none_only exS "DU1" 1 (JVal.str "") (JVal.obj []) false
    ⟨exEnv, 1, []⟩ rfl (fun h => JVal.noConfusion h) (fun h => JVal.noConfusion h)

/-! ## State-preservation helpers for the account-field frame property -/

/-- A normal return of `_reply_all_yes` leaves the client state unchanged. -/
theorem reply_all_yes_state (s : RESTState) (fuel : Nat) (body : JVal)
    (ry : Bool) (w : World) (r : JVal) (s' : RESTState) (w' : World)
    (h : reply_all_yes s fuel body ry w = (.ok (r, s'), w')) : s' = s := by
  simp only [reply_all_yes] at h
  split at h
  · simp at h
  · split at h
    · exact (replyLoopAux_ok fuel s _ w r s' w' h).2
    · simp only [Prod.mk.injEq, Res.ok.injEq] at h
      exact h.1.2.symm

/-- Model of `submit_orders` leaves the client state unchanged. -/
theorem submit_orders_state (s : RESTState) (fuel : Nat) (orders : List JVal)
    (ry : Bool) (w : World) (r : JVal) (s' : RESTState) (w' : World)
    (h : submit_orders s fuel orders ry w = (.ok (r, s'), w')) : s' = s := by
  simp only [submit_orders] at h
  split at h
  · simp at h
  · exact reply_all_yes_state s fuel _ ry _ r s' w' h

/-- Model of `modify_order` leaves the client state unchanged. -/
theorem modify_order_state (s : RESTState) (fuel : Nat) (orderId order : JVal)
    (ry : Bool) (w : World) (r : JVal) (s' : RESTState) (w' : World)
    (h : modify_order s fuel orderId order ry w = (.ok (r, s'), w')) :
    s' = s := by
  simp only [modify_order] at h
  split at h
  · split at h
    · simp at h
    · exact reply_all_yes_state s fuel _ ry _ r s' w' h
  · simp at h

/-- Model of `cancel_order` leaves the client state unchanged. -/
theorem cancel_order_state (s : RESTState) (orderId : JVal) (w : World)
    (r : JVal) (s' : RESTState) (w' : World)
    (h : cancel_order s orderId w = (.ok (r, s'), w')) : s' = s := by
  simp only [cancel_order, doRequest] at h
  split at h
  · simp at h
  · simp only [Prod.mk.injEq, Res.ok.injEq] at h
    exact h.1.2.symm

/-- Model of `get_accounts` leaves the client state unchanged. -/
theorem get_accounts_state (s : RESTState) (w : World)
    (r : JVal) (s' : RESTState) (w' : World)
    (h : get_accounts s w = (.ok (r, s'), w')) : s' = s := by
  simp only [get_accounts, doRequest, Prod.mk.injEq, Res.ok.injEq] at h
  exact h.1.2.symm

/-- Model of `get_cash` leaves the client state unchanged. -/
theorem get_cash_state (s : RESTState) (w : World)
    (r : JVal) (s' : RESTState) (w' : World)
    (h : get_cash s w = (.ok (r, s'), w')) : s' = s := by
  simp only [get_cash, doRequest] at h
  split at h
  · simp at h
  · split at h
    · simp at h
    · simp only [Prod.mk.injEq, Res.ok.injEq] at h
      exact h.1.2.symm

/-- Model of `get_netvalue` leaves the client state unchanged. -/
theorem get_netvalue_state (s : RESTState) (w : World)
    (r : JVal) (s' : RESTState) (w' : World)
    (h : get_netvalue s w = (.ok (r, s'), w')) : s' = s := by
  simp only [get_netvalue, doRequest] at h
  split at h
  · simp at h
  · split at h
    · simp at h
    · simp only [Prod.mk.injEq, Res.ok.injEq] at h
      exact h.1.2.symm

/-- Model of `get_conid` leaves the client state unchanged. -/
theorem get_conid_state (s : RESTState) (symbol : String) (w : World)
    (r : JVal) (s' : RESTState) (w' : World)
    (h : get_conid s symbol w = (.ok (r, s'), w')) : s' = s := by
  simp only [get_conid, doRequest] at h
  split at h
  · simp at h
  · simp only [Prod.mk.injEq, Res.ok.injEq] at h
    exact h.1.2.symm

/-- Model of `get_portfolio` leaves the client state unchanged. -/
theorem get_portfolio_state (s : RESTState) (w : World)
    (r : JVal) (s' : RESTState) (w' : World)
    (h : get_portfolio s w = (.ok (r, s'), w')) : s' = s := by
  simp only [get_portfolio, doRequest] at h
  split at h
  · simp at h
  · split at h
    · simp at h
    · split at h
      · rename_i heq
        simp only [Prod.mk.injEq, Res.ok.injEq] at h
        obtain ⟨⟨-, hs⟩, -⟩ := h
        exact hs.symm.trans (get_cash_state s _ _ _ _ heq)
      · simp at h
      · simp at h

/-- Model of `get_order` leaves the client state unchanged. -/
theorem get_order_state (s : RESTState) (orderId : JVal) (w : World)
    (r : JVal) (s' : RESTState) (w' : World)
    (h : get_order s orderId w = (.ok (r, s'), w')) : s' = s := by
  simp only [get_order, doRequest, Prod.mk.injEq, Res.ok.injEq] at h
  exact h.1.2.symm

/-- Model of `get_live_orders` leaves the client state unchanged. -/
theorem get_live_orders_state (s : RESTState) (filters : JVal) (w : World)
    (r : JVal) (s' : RESTState) (w' : World)
    (h : get_live_orders s filters w = (.ok (r, s'), w')) : s' = s := by
  simp only [get_live_orders, doRequest, Prod.mk.injEq, Res.ok.injEq] at h
  exact h.1.2.symm

/-- Model of `ping_server` leaves the client state unchanged. -/
theorem ping_server_state (s : RESTState) (w : World)
    (r : JVal) (s' : RESTState) (w' : World)
    (h : ping_server s w = (.ok (r, s'), w')) : s' = s := by
  simp only [ping_server, doRequest, Prod.mk.injEq, Res.ok.injEq] at h
  exact h.1.2.symm

/-- Model of `get_auth_status` leaves the client state unchanged. -/
theorem get_auth_status_state (s : RESTState) (w : World)
    (r : JVal) (s' : RESTState) (w' : World)
    (h : get_auth_status s w = (.ok (r, s'), w')) : s' = s := by
  simp only [get_auth_status, doRequest, Prod.mk.injEq, Res.ok.injEq] at h
  exact h.1.2.symm

/-- Model of `re_authenticate` leaves the client state unchanged. -/
theorem re_authenticate_state (s : RESTState) (w : World)
    (r : JVal) (s' : RESTState) (w' : World)
    (h : re_authenticate s w = (.ok (r, s'), w')) : s' = s := by
  simp only [re_authenticate, doRequest, Prod.mk.injEq, Res.ok.injEq] at h
  exact h.1.2.symm

/-- Model of `log_out` leaves the client state unchanged. -/
theorem log_out_state (s : RESTState) (w : World)
    (r : JVal) (s' : RESTState) (w' : World)
    (h : log_out s w = (.ok (r, s'), w')) : s' = s := by
  simp only [log_out, doRequest, Prod.mk.injEq, Res.ok.injEq] at h
  exact h.1.2.symm

/-- Model of `get_bars` leaves the client state unchanged. -/
theorem get_bars_state (s : RESTState) (symbol period bar : String)
    (outsideRth : Bool) (conid : JVal) (w : World)
    (r : JVal) (s' : RESTState) (w' : World)
    (h : get_bars s symbol period bar outsideRth conid w = (.ok (r, s'), w')) :
    s' = s := by
  simp only [get_bars, doRequest] at h
  split at h
  · rename_i conid2 s2 w1 heq
    split at h
    · simp at h
    · simp only [Prod.mk.injEq, Res.ok.injEq] at h
      obtain ⟨⟨-, hs⟩, -⟩ := h
      have hs2 : s2 = s := by
        split at heq
        · exact get_conid_state s symbol w _ _ _ heq
        · simp only [Prod.mk.injEq, Res.ok.injEq] at heq
          exact heq.1.2.symm
      exact hs.symm.trans hs2
  · simp at h
  · simp at h

/-- Model of `get_fut_conids` leaves the client state unchanged. -/
theorem get_fut_conids_state (s : RESTState) (symbol : String) (w : World)
    (r : JVal) (s' : RESTState) (w' : World)
    (h : get_fut_conids s symbol w = (.ok (r, s'), w')) : s' = s := by
  simp only [get_fut_conids, doRequest] at h
  split at h
  · simp at h
  · simp only [Prod.mk.injEq, Res.ok.injEq] at h
    exact h.1.2.symm

/-- Model of `symbol_search` leaves the client state unchanged. -/
theorem symbol_search_state (s : RESTState) (symbol secType : String)
    (w : World) (r : JVal) (s' : RESTState) (w' : World)
    (h : symbol_search s symbol secType w = (.ok (r, s'), w')) : s' = s := by
  simp only [symbol_search, doRequest, Prod.mk.injEq, Res.ok.injEq] at h
  exact h.1.2.symm

/-- Model of `get_strikes` leaves the client state unchanged. -/
theorem get_strikes_state (s : RESTState) (conid secType month exchange : JVal)
    (w : World) (r : JVal) (s' : RESTState) (w' : World)
    (h : get_strikes s conid secType month exchange w = (.ok (r, s'), w')) :
    s' = s := by
  simp only [get_strikes, doRequest, Prod.mk.injEq, Res.ok.injEq] at h
  exact h.1.2.symm

/-- Model of `get_info` never returns normally, so it vacuously leaves the client
state unchanged. -/
theorem get_info_state (s : RESTState) (a b c d e : JVal) (w : World)
    (r : JVal) (s' : RESTState) (w' : World)
    (h : get_info s a b c d e w = (.ok (r, s'), w')) : s' = s := by
  have h2 : ((Res.exn PyErr.typeError : Res (JVal × RESTState)), w)
      = (.ok (r, s'), w') := h
  simp at h2

/-- Model of `reply_yes` leaves the client state unchanged (restated over the
result pair). -/
theorem reply_yes_state (s : RESTState) (idv : JVal) (w : World)
    (r : JVal) (s' : RESTState) (w' : World)
    (h : reply_yes s idv w = (.ok (r, s'), w')) : s' = s :=
  reply_yes_ok_state s idv w r s' w' h

/-- Model of `REST.__init__` evaluated against a first account with an `accountId`
field: one GET to the account-listing endpoint, and the selected-account
field is set to that `accountId`. -/
theorem REST_init_eval (url : String) (ssl : Bool) (w : World)
    (first : JVal) (rest : List JVal) (acct : JVal)
    (h0 : w.env w.next = JVal.arr (first :: rest))
    (h1 : objGet first "accountId" = Except.ok acct) :
    REST_init url ssl w
      = (.ok ⟨url ++ "/v1/api/", ssl, acct⟩,
         ⟨w.env, w.next + 1,
          w.trace ++ [Call.get ((url ++ "/v1/api/") ++ "portfolio/accounts")
            JVal.null]⟩) := by
  simp [REST_init, get_accounts, doRequest, h0, jsonIndex0, h1]

/-- Model of `switch_account` sets the selected-account field to exactly its
argument. -/
theorem switch_account_eval (s : RESTState) (a : JVal) (w : World) :
    switch_account s a w
      = (.ok (w.env w.next, { s with id := a }),
         ⟨w.env, w.next + 1,
          w.trace ++ [Call.post (s.url ++ "iserver/account")
            (JVal.obj [("acctId", a)])]⟩) := rfl

/-- C6: the selected-account field is set at construction to the
`accountId` of the first account returned by the account-listing endpoint,
is set to exactly its argument by `switch_account`, and is left unchanged
by every other operation — the order operations and all the read-only
endpoints. -/
theorem C6_account_field_frame :
    (∀ (url : String) (ssl : Bool) (w : World) (first : JVal)
        (rest : List JVal) (acct : JVal),
        w.env w.next = JVal.arr (first :: rest) →
        objGet first "accountId" = Except.ok acct →
        REST_init url ssl w
          = (.ok ⟨url ++ "/v1/api/", ssl, acct⟩,
             ⟨w.env, w.next + 1,
              w.trace ++ [Call.get ((url ++ "/v1/api/") ++ "portfolio/accounts")
                JVal.null]⟩))
    ∧ (∀ (s : RESTState) (a : JVal) (w : World),
        (switch_account s a w).1 = .ok (w.env w.next, { s with id := a }))
    ∧ (∀ (s : RESTState) (fuel : Nat) (orders : List JVal) (ry : Bool)
        (w : World) (r : JVal) (s' : RESTState) (w' : World),
        submit_orders s fuel orders ry w = (.ok (r, s'), w') → s'.id = s.id)
    ∧ (∀ (s : RESTState) (fuel : Nat) (orderId order : JVal) (ry : Bool)
        (w : World) (r : JVal) (s' : RESTState) (w' : World),
        modify_order s fuel orderId order ry w = (.ok (r, s'), w') →
        s'.id = s.id)
    ∧ (∀ (s : RESTState) (idv : JVal) (w : World) (r : JVal) (s' : RESTState)
        (w' : World),
        reply_yes s idv w = (.ok (r, s'), w') → s'.id = s.id)
    ∧ (∀ (s : RESTState) (orderId : JVal) (w : World) (r : JVal)
        (s' : RESTState) (w' : World),
        cancel_order s orderId w = (.ok (r, s'), w') → s'.id = s.id)
    ∧ (∀ (s : RESTState) (w : World) (r : JVal) (s' : RESTState) (w' : World),
        get_accounts s w = (.ok (r, s'), w') → s'.id = s.id)
    ∧ (∀ (s : RESTState) (w : World) (r : JVal) (s' : RESTState) (w' : World),
        get_cash s w = (.ok (r, s'), w') → s'.id = s.id)
    ∧ (∀ (s : RESTState) (w : World) (r : JVal) (s' : RESTState) (w' : World),
        get_netvalue s w = (.ok (r, s'), w') → s'.id = s.id)
    ∧ (∀ (s : RESTState) (symbol : String) (w : World) (r : JVal)
        (s' : RESTState) (w' : World),
        get_conid s symbol w = (.ok (r, s'), w') → s'.id = s.id)
    ∧ (∀ (s : RESTState) (w : World) (r : JVal) (s' : RESTState) (w' : World),
        get_portfolio s w = (.ok (r, s'), w') → s'.id = s.id)
    ∧ (∀ (s : RESTState) (orderId : JVal) (w : World) (r : JVal)
        (s' : RESTState) (w' : World),
        get_order s orderId w = (.ok (r, s'), w') → s'.id = s.id)
    ∧ (∀ (s : RESTState) (filters : JVal) (w : World) (r : JVal)
        (s' : RESTState) (w' : World),
        get_live_orders s filters w = (.ok (r, s'), w') → s'.id = s.id)
    ∧ (∀ (s : RESTState) (w : World) (r : JVal) (s' : RESTState) (w' : World),
        ping_server s w = (.ok (r, s'), w') → s'.id = s.id)
    ∧ (∀ (s : RESTState) (w : World) (r : JVal) (s' : RESTState) (w' : World),
        get_auth_status s w = (.ok (r, s'), w') → s'.id = s.id)
    ∧ (∀ (s : RESTState) (w : World) (r : JVal) (s' : RESTState) (w' : World),
        re_authenticate s w = (.ok (r, s'), w') → s'.id = s.id)
    ∧ (∀ (s : RESTState) (w : World) (r : JVal) (s' : RESTState) (w' : World),
        log_out s w = (.ok (r, s'), w') → s'.id = s.id)
    ∧ (∀ (s : RESTState) (symbol period bar : String) (outsideRth : Bool)
        (conid : JVal) (w : World) (r : JVal) (s' : RESTState) (w' : World),
        get_bars s symbol period bar outsideRth conid w = (.ok (r, s'), w') →
        s'.id = s.id)
    ∧ (∀ (s : RESTState) (symbol : String) (w : World) (r : JVal)
        (s' : RESTState) (w' : World),
        get_fut_conids s symbol w = (.ok (r, s'), w') → s'.id = s.id)
    ∧ (∀ (s : RESTState) (symbol secType : String) (w : World) (r : JVal)
        (s' : RESTState) (w' : World),
        symbol_search s symbol secType w = (.ok (r, s'), w') → s'.id = s.id)
    ∧ (∀ (s : RESTState) (conid secType month exchange : JVal) (w : World)
        (r : JVal) (s' : RESTState) (w' : World),
        get_strikes s conid secType month exchange w = (.ok (r, s'), w') →
        s'.id = s.id)
    ∧ (∀ (s : RESTState) (a b c d e : JVal) (w : World) (r : JVal)
        (s' : RESTState) (w' : World),
        get_info s a b c d e w = (.ok (r, s'), w') → s'.id = s.id) := by
  refine ⟨REST_init_eval, fun s a w => rfl, ?_, ?_, ?_, ?_, ?_, ?_, ?_, ?_,
    ?_, ?_, ?_, ?_, ?_, ?_, ?_, ?_, ?_, ?_, ?_, ?_⟩
  · intro s fuel orders ry w r s' w' h
    exact congrArg RESTState.id (submit_orders_state s fuel orders ry w r s' w' h)
  · intro s fuel orderId order ry w r s' w' h
    exact congrArg RESTState.id
      (modify_order_state s fuel orderId order ry w r s' w' h)
  · intro s idv w r s' w' h
    exact congrArg RESTState.id (reply_yes_state s idv w r s' w' h)
  · intro s orderId w r s' w' h
    exact congrArg RESTState.id (cancel_order_state s orderId w r s' w' h)
  · intro s w r s' w' h
    exact congrArg RESTState.id (get_accounts_state s w r s' w' h)
  · intro s w r s' w' h
    exact congrArg RESTState.id (get_cash_state s w r s' w' h)
  · intro s w r s' w' h
    exact congrArg RESTState.id (get_netvalue_state s w r s' w' h)
  · intro s symbol w r s' w' h
    exact congrArg RESTState.id (get_conid_state s symbol w r s' w' h)
  · intro s w r s' w' h
    exact congrArg RESTState.id (get_portfolio_state s w r s' w' h)
  · intro s orderId w r s' w' h
    exact congrArg RESTState.id (get_order_state s orderId w r s' w' h)
  · intro s filters w r s' w' h
    exact congrArg RESTState.id (get_live_orders_state s filters w r s' w' h)
  · intro s w r s' w' h
    exact congrArg RESTState.id (ping_server_state s w r s' w' h)
  · intro s w r s' w' h
    exact congrArg RESTState.id (get_auth_status_state s w r s' w' h)
  · intro s w r s' w' h
    exact congrArg RESTState.id (re_authenticate_state s w r s' w' h)
  · intro s w r s' w' h
    exact congrArg RESTState.id (log_out_state s w r s' w' h)
  · intro s symbol period bar outsideRth conid w r s' w' h
    exact congrArg RESTState.id
      (get_bars_state s symbol period bar outsideRth conid w r s' w' h)
  · intro s symbol w r s' w' h
    exact congrArg RESTState.id (get_fut_conids_state s symbol w r s' w' h)
  · intro s symbol secType w r s' w' h
    exact congrArg RESTState.id (symbol_search_state s symbol secType w r s' w' h)
  · intro s conid secType month exchange w r s' w' h
    exact congrArg RESTState.id
      (get_strikes_state s conid secType month exchange w r s' w' h)
  · intro s a b c d e w r s' w' h
    exact congrArg RESTState.id (get_info_state s a b c d e w r s' w' h)

/-- Witness for C6: construction against a one-account listing sets the
field to `"DU1"`; a switch sets it to `"DU2"`; a concrete `reply_yes` run
leaves it untouched. -/
theorem C6_witness :
    (REST_init "https://localhost:5000" false
        ⟨fun _ => JVal.arr [JVal.obj [("accountId", JVal.str "DU1")]], 0, []⟩
      = (.ok ⟨"https://localhost:5000" ++ "/v1/api/", false, JVal.str "DU1"⟩,
         ⟨fun _ => JVal.arr [JVal.obj [("accountId", JVal.str "DU1")]], 0 + 1,
          [] ++ [Call.get (("https://localhost:5000" ++ "/v1/api/")
            ++ "portfolio/accounts") JVal.null]⟩))
    ∧ (switch_account exS (JVal.str "DU2") ⟨exEnv, 0, []⟩).1
        = .ok (exEnv 0, { exS with id := JVal.str "DU2" })
    ∧ (reply_yes exS (JVal.str "m1") ⟨exEnv, 1, []⟩
        = (.ok (exFinal, exS), ⟨exEnv, 1 + 1,
            [] ++ [Call.post ((exS.url ++ "iserver/reply/") ++ "m1")
              (JVal.obj [("confirmed", JVal.bool true)])]⟩) →
       exS.id = exS.id) :=
  ⟨C6_account_field_frame.1 "https://localhost:5000" false
     ⟨fun _ => JVal.arr [JVal.obj [("accountId", JVal.str "DU1")]], 0, []⟩
     (JVal.obj [("accountId", JVal.str "DU1")]) [] (JVal.str "DU1") rfl rfl,
   C6_account_field_frame.2.1 exS (JVal.str "DU2") ⟨exEnv, 0, []⟩,
   fun h => C6_account_field_frame.2.2.2.2.1 exS (JVal.str "m1")
     ⟨exEnv, 1, []⟩ exFinal exS _ h⟩
